import Mathlib

/-!
Verification of the github-data-fetch-display repository.

Shallow embedding of:
- `src/app/api/saveRepo/route.ts` (the persistence endpoint `POST` and
  its helper `readRepoData`),
- `src/store/useRepoStore.ts` (the repo list store and `addRepo`),
- `src/hooks/useFetchRepo.ts` (the fetch hook whose query function
  fetches upstream data and then posts it to `/api/saveRepo`),
- `src/components/RepoForm.tsx` (zod-validated form submission),
- the archive-hydrating display component (`loadExistingRepos`).

JSON values are modelled semantically; the on-disk archive file is
modelled as a `DiskState` that is either absent, present-but-unparsable,
or present with a parsed JSON value (writing the serialisation of a
value and later parsing it back yields that value).
-/

/-- Semantic JSON values, as produced by `JSON.parse` / consumed by
`JSON.stringify` in the route. Numbers are modelled as integers, which
covers every field the program touches. -/
inductive Json where
  | null : Json
  | bool (b : Bool) : Json
  | num (n : Int) : Json
  | str (s : String) : Json
  | arr (elems : List Json) : Json
  | obj (fields : List (String × Json)) : Json
  deriving Repr

/-- The shape of the upstream repository metadata the UI uses
(`full_name`, `description`, `stargazers_count`, `forks_count`,
`html_url`); extra upstream fields pass through opaquely in `extra`. -/
structure RepoRecord where
  full_name : String
  description : Option String
  stargazers_count : Nat
  forks_count : Nat
  html_url : String
  extra : List (String × Json)
  deriving Repr

/-- The JSON object a `RepoRecord` stands for on the wire and on disk. -/
def RepoRecord.toJson (r : RepoRecord) : Json :=
  Json.obj
    ([("full_name", Json.str r.full_name),
      ("description", (r.description.map Json.str).getD Json.null),
      ("stargazers_count", Json.num r.stargazers_count),
      ("forks_count", Json.num r.forks_count),
      ("html_url", Json.str r.html_url)] ++ r.extra)

/-- State of the archive file `public/repoData.json`: absent, present but
not valid JSON, or present with parsed contents `j`. -/
inductive DiskState where
  | absent : DiskState
  | corrupt : DiskState
  | content (j : Json) : DiskState
  deriving Repr

/-- `readRepoData` from `route.ts`: read and `JSON.parse` the archive
file, returning the empty array when the read or the parse throws. -/
def readRepoData : DiskState → Json
  | DiskState.absent => Json.arr []
  | DiskState.corrupt => Json.arr []
  | DiskState.content j => j

/-- Result of one request to the endpoint: the JSON body it answers
with, together with the HTTP status (200 on the success path, 500 on the
catch path). -/
inductive PostResult where
  | success (message : String) : PostResult
  | failure (error : String) (status : Nat) : PostResult
  deriving Repr

/-- `existingData.push(newRepoData)`: succeeds exactly when the parsed
archive is an array (on any other JSON value `.push` throws a
`TypeError`, which the route's `catch` turns into a 500). -/
def pushRecord (base : Json) (r : Json) : Option Json :=
  match base with
  | Json.arr elems => some (Json.arr (elems ++ [r]))
  | _ => none

/-- `writeFile(DATA_FILE_PATH, JSON.stringify(...))`: overwrites the
archive file with the serialisation of `j`, regardless of what was there
before. -/
def writeArchive (_old : DiskState) (j : Json) : DiskState :=
  DiskState.content j

/-- `POST` from `route.ts`. `body` is the result of `req.json()` (`none`
when the request body is not valid JSON); `writeOk` says whether the
`writeFile` call succeeds (an I/O failure there is caught and turned
into a 500, leaving the previous disk state). Returns the response and
the resulting disk state. -/
def POST (body : Option Json) (disk : DiskState) (writeOk : Bool) :
    PostResult × DiskState :=
  match body with
  | none => (PostResult.failure "Failed to save data" 500, disk)
  | some newRepoData =>
    match pushRecord (readRepoData disk) newRepoData with
    | none => (PostResult.failure "Failed to save data" 500, disk)
    | some updated =>
      if writeOk then
        (PostResult.success "Data saved successfully!", writeArchive disk updated)
      else
        (PostResult.failure "Failed to save data" 500, disk)

/-- Issuing the given POSTs one at a time, awaiting each response before
the next (all request bodies valid, all writes succeeding). -/
def postSeq (records : List Json) (disk : DiskState) : DiskState :=
  records.foldl (fun d r => (POST (some r) d true).2) disk

/-- Two concurrent POSTs interleaved so that both handlers run their
`readRepoData` before either runs its `writeFile`: both see the same
pre-append contents, the first write lands, and the second write
overwrites it. This interleaving is possible because the route has no
locking around its read-modify-write cycle. -/
def racePostBothReadFirst (disk : DiskState) (r1 r2 : Json) : DiskState :=
  let base1 := readRepoData disk
  let base2 := readRepoData disk
  match pushRecord base1 r1, pushRecord base2 r2 with
  | some j1, some j2 => writeArchive (writeArchive disk j1) j2
  | _, _ => disk

/-- `addRepo` from `useRepoStore.ts`:
`set((state) => ({ repos: [repo, ...state.repos] }))`. -/
def addRepo (repo : String) (repos : List String) : List String :=
  repo :: repos

/-- The zod message of `z.string().min(3, ...)` in `RepoForm.tsx`. -/
def minLengthMessage : String :=
  "Repository name must be at least 3 characters long"

/-- One form submission in `RepoForm.tsx`: `handleSubmit` runs the zod
resolver; an input shorter than 3 characters populates
`errors.repo.message` and `onSubmit` (which calls `addRepo`) is not
invoked; otherwise `addRepo` runs and no error is shown. Returns the
store contents after the submission and the displayed error message. -/
def submitRepoForm (input : String) (repos : List String) :
    List String × Option String :=
  if input.length < 3 then
    (repos, some minLengthMessage)
  else
    (addRepo input repos, none)

/-- The query function of `useFetchRepo.ts`: await `fetchRepo(repo)`
(the upstream GitHub call, `Except.error` on network failure, non-2xx or
malformed payload), then await `axios.post("/api/saveRepo", data)`
(which rejects on a 500 from the endpoint), then return the upstream
data. Any rejection makes the query end in its error state. -/
def queryFn (upstream : Except Unit Json) (save : Json → Except Unit Unit) :
    Except Unit Json :=
  match upstream with
  | Except.error e => Except.error e
  | Except.ok d =>
    match save d with
    | Except.error e => Except.error e
    | Except.ok _ => Except.ok d

/-- Running the hook's query function alongside the repo list store: the
hook never touches the store, it only produces a query result. -/
def useFetchRepoStep (repos : List String) (upstream : Except Unit Json)
    (save : Json → Except Unit Unit) : List String × Except Unit Json :=
  (repos, queryFn upstream save)

/-- `loadExistingRepos` from the archive-hydrating display component:
`axios.get("/repoData.json")` then `setRepos(res.data.reverse())`, so
the displayed list is the on-disk array reversed (newest first). -/
def loadExistingRepos (archive : List Json) : List Json :=
  archive.reverse

-- Helper lemma shared by the sequential-POST theorems: starting from a
-- parsed array archive, a sequence of POSTs appends all records in order.
theorem postSeq_content (records : List Json) (s : List Json) :
    postSeq records (DiskState.content (Json.arr s)) =
      DiskState.content (Json.arr (s ++ records)) := by
  induction records generalizing s with
  | nil => simp [postSeq]
  | cons r rs ih =>
    simp only [postSeq, List.foldl_cons] at *
    simpa [POST, readRepoData, pushRecord, writeArchive] using ih (s ++ [r])

/-- Whether a react-query result is in its error state (the query
function rejected). -/
def isErrorResult : Except Unit Json → Bool
  | Except.error _ => true
  | Except.ok _ => false

/-- Claim C1: a successful POST of a RepoRecord `r` against an archive
holding the record sequence `s` leaves the archive equal to `s` with
`r` appended at the end (oldest-first on disk) and returns the message
"Data saved successfully!". -/
theorem POST_appends_record (s : List Json) (r : RepoRecord) :
    POST (some r.toJson) (DiskState.content (Json.arr s)) true =
      (PostResult.success "Data saved successfully!",
       DiskState.content (Json.arr (s ++ [r.toJson]))) := by
  simp [POST, readRepoData, pushRecord, writeArchive]

/-- Claim C2: two concurrent POSTs whose reads both happen before either
write each append to the same pre-append contents; the second write
overwrites the first, so the final archive is `s ++ [r2]` and the first
record `r1` is silently lost (it is nowhere in the final archive when it
was not already present). -/
theorem concurrentPosts_lose_update (s : List Json) (r1 r2 : Json)
    (h1 : r1 ∉ s) (h2 : r1 ≠ r2) :
    racePostBothReadFirst (DiskState.content (Json.arr s)) r1 r2 =
      DiskState.content (Json.arr (s ++ [r2])) ∧
    r1 ∉ s ++ [r2] := by
  refine ⟨by simp [racePostBothReadFirst, readRepoData, pushRecord, writeArchive], ?_⟩
  simp [List.mem_append, h1, h2]

/-- Witness for C2 at a concrete archive and two concrete records. -/
theorem concurrentPosts_lose_update_witness :
    racePostBothReadFirst (DiskState.content (Json.arr [Json.str "a/a"]))
        (Json.str "b/b") (Json.str "c/c") =
      DiskState.content (Json.arr ([Json.str "a/a"] ++ [Json.str "c/c"])) ∧
    Json.str "b/b" ∉ [Json.str "a/a"] ++ [Json.str "c/c"] :=
  concurrentPosts_lose_update [Json.str "a/a"] (Json.str "b/b") (Json.str "c/c")
    (by simp) (by simp)

/-- Claim C3: when the archive file is absent or unparsable, the
endpoint treats the current contents as the empty sequence, and a POST
of any valid body still succeeds (creating a one-element archive). -/
theorem POST_recovers_unreadable_archive (v : Json) (d : DiskState)
    (h : d = DiskState.absent ∨ d = DiskState.corrupt) :
    readRepoData d = Json.arr [] ∧
    POST (some v) d true =
      (PostResult.success "Data saved successfully!",
       DiskState.content (Json.arr [v])) := by
  rcases h with h | h <;> subst h <;>
    simp [readRepoData, POST, pushRecord, writeArchive]

/-- Witness for C3: POST of `null` against an absent archive file. -/
theorem POST_recovers_unreadable_archive_witness :
    readRepoData DiskState.absent = Json.arr [] ∧
    POST (some Json.null) DiskState.absent true =
      (PostResult.success "Data saved successfully!",
       DiskState.content (Json.arr [Json.null])) :=
  POST_recovers_unreadable_archive Json.null DiskState.absent (Or.inl rfl)

/-- Claim C4: starting from an absent archive file, POSTing the records
`r :: rs` one at a time yields an archive holding exactly those records
in submission order; in particular the very first POST turns the absent
file into an archive holding exactly the one posted record. -/
theorem postSeq_from_absent (r : Json) (rs : List Json) :
    postSeq (r :: rs) DiskState.absent =
      DiskState.content (Json.arr (r :: rs)) ∧
    (POST (some r) DiskState.absent true).2 =
      DiskState.content (Json.arr [r]) := by
  refine ⟨?_, by simp [POST, readRepoData, pushRecord, writeArchive]⟩
  calc postSeq (r :: rs) DiskState.absent
      = postSeq rs (DiskState.content (Json.arr [r])) := by
        simp [postSeq, POST, readRepoData, pushRecord, writeArchive]
    _ = DiskState.content (Json.arr ([r] ++ rs)) := postSeq_content rs [r]
    _ = DiskState.content (Json.arr (r :: rs)) := by simp

/-- Claim C5: for an identifier of length at least 3, `addRepo`
prepends it: afterwards the element at index 0 is the identifier and
the length of `repos` has grown by exactly 1. -/
theorem addRepo_prepends (i : String) (repos : List String)
    (h : 3 ≤ i.length) :
    (addRepo i repos).head? = some i ∧
    (addRepo i repos).length = repos.length + 1 := by
  simp [addRepo]

/-- Witness for C5 at a concrete identifier and empty store. -/
theorem addRepo_prepends_witness :
    (addRepo "a/b" ([] : List String)).head? = some "a/b" ∧
    (addRepo "a/b" ([] : List String)).length = ([] : List String).length + 1 :=
  addRepo_prepends "a/b" [] (by decide)

/-- Counterexample to C6 as stated: the hook's query function can end in
its error state even though the upstream call succeeded, because it also
awaits the POST to `/api/saveRepo` — here the upstream fetch returns
data but the save rejects, and the query still errors. -/
theorem useFetchRepo_error_despite_upstream_success :
    isErrorResult (queryFn (Except.ok Json.null)
        (fun _ => Except.error ())) = true ∧
    isErrorResult (Except.ok Json.null) = false := by
  exact ⟨rfl, rfl⟩

/-- Claim C6 amended: the query errors exactly when the upstream call
fails or the subsequent persistence POST fails, and in every case the
repo list store is left unchanged (the identifier is not removed or
reordered). -/
theorem useFetchRepo_error_iff (repos : List String)
    (upstream : Except Unit Json) (save : Json → Except Unit Unit) :
    (isErrorResult (useFetchRepoStep repos upstream save).2 = true ↔
      (upstream = Except.error () ∨
        ∃ d, upstream = Except.ok d ∧ save d = Except.error ())) ∧
    (useFetchRepoStep repos upstream save).1 = repos := by
  refine ⟨?_, rfl⟩
  cases upstream with
  | error e =>
    cases e
    simp [useFetchRepoStep, queryFn, isErrorResult]
  | ok d =>
    cases hs : save d with
    | error e =>
      cases e
      simp [useFetchRepoStep, queryFn, isErrorResult, hs]
    | ok u =>
      simp [useFetchRepoStep, queryFn, isErrorResult, hs]

/-- Claim C7: a submitted identifier shorter than 3 characters is
rejected at the form boundary: the store is unchanged (`addRepo` is
never reached) and the zod validation message is surfaced. -/
theorem repoForm_rejects_short (input : String) (repos : List String)
    (h : input.length < 3) :
    submitRepoForm input repos = (repos, some minLengthMessage) := by
  simp [submitRepoForm, h]

/-- Witness for C7 at the two-character input "ab". -/
theorem repoForm_rejects_short_witness :
    submitRepoForm "ab" ["x/y"] = (["x/y"], some minLengthMessage) :=
  repoForm_rejects_short "ab" ["x/y"] (by decide)

/-- Claim C8: mount-time hydration displays exactly the reverse of the
on-disk archive array — same length, and the element displayed at
position `k` is the on-disk element at position `length - 1 - k`
(newest-first presentation of an oldest-first file). -/
theorem loadExistingRepos_reverses (archive : List Json) (k : Nat)
    (h : k < archive.length) :
    (loadExistingRepos archive).length = archive.length ∧
    (loadExistingRepos archive)[k]? = archive[archive.length - 1 - k]? := by
  refine ⟨by simp [loadExistingRepos], ?_⟩
  simp [loadExistingRepos, List.getElem?_reverse h]

/-- Witness for C8 on a two-element archive at display position 0. -/
theorem loadExistingRepos_reverses_witness :
    (loadExistingRepos [Json.str "old", Json.str "new"]).length =
      ([Json.str "old", Json.str "new"] : List Json).length ∧
    (loadExistingRepos [Json.str "old", Json.str "new"])[0]? =
      ([Json.str "old", Json.str "new"] : List Json)[
        ([Json.str "old", Json.str "new"] : List Json).length - 1 - 0]? :=
  loadExistingRepos_reverses [Json.str "old", Json.str "new"] 0 (by simp)

/-- Claim C9: `addRepo` changes nothing except prepending: every element
previously at index `k` of `repos` is afterwards at index `k + 1`, so
all previously stored identifiers keep their original relative order. -/
theorem addRepo_preserves_existing (i : String) (repos : List String) (k : Nat) :
    (addRepo i repos)[k + 1]? = repos[k]? := by
  simp [addRepo]

/-- Claim C10: the endpoint validates nothing about the request body:
any JSON value `v` whatsoever — object, array, number, string, boolean
or null — is appended verbatim as the last element of the archive by a
successful POST. -/
theorem POST_accepts_any_json (s : List Json) (v : Json) :
    POST (some v) (DiskState.content (Json.arr s)) true =
      (PostResult.success "Data saved successfully!",
       DiskState.content (Json.arr (s ++ [v]))) := by
  simp [POST, readRepoData, pushRecord, writeArchive]
